import Mathlib

/-!
Shallow embedding of the grid-simulation core of a browser Snake game:
the `Snake` and `Food` entities and the scene-level orchestration
(collision classification, food-collision handling, pause gating).
Positions are integer grid cells; the TypeScript classes are modelled as
immutable records with state-passing operations.
-/

/-- Grid position in cell coordinates (source type `Position` in types/game.ts). -/
structure Position where
  x : Int
  y : Int
deriving DecidableEq, Repr, Inhabited

/-- Cardinal movement direction (source type `Direction`). -/
inductive Direction where
  | up
  | down
  | left
  | right
deriving DecidableEq, Repr, Inhabited

/-- Opposite-direction map (source constant `OPPOSITE_DIRECTION`). -/
def OPPOSITE_DIRECTION : Direction → Direction
  | .up => .down
  | .down => .up
  | .left => .right
  | .right => .left

/-- Unit displacement vector per direction (source constant `DIRECTION_VECTORS`). -/
def DIRECTION_VECTORS : Direction → Position
  | .up => ⟨0, -1⟩
  | .down => ⟨0, 1⟩
  | .left => ⟨-1, 0⟩
  | .right => ⟨1, 0⟩

/-- Grid width in cells (source `GRID.WIDTH` = 40). -/
def GRID_WIDTH : Nat := 40

/-- Grid height in cells (source `GRID.HEIGHT` = 30). -/
def GRID_HEIGHT : Nat := 30

/-- State of the `Snake` entity (fields `body`, `direction`, `nextDirection`,
`hasGrown` of class `Snake` in Snake.ts). -/
structure Snake where
  body : List Position
  direction : Direction
  nextDirection : Direction
  hasGrown : Bool
deriving DecidableEq, Repr

/-- The `Snake` constructor with an explicit start position: body is laid out as
`[start, start-(1,0), start-(2,0)]`, both direction fields set, growth flag clear. -/
def Snake.create (startPos : Position) (initialDirection : Direction) : Snake :=
  { body := [⟨startPos.x, startPos.y⟩, ⟨startPos.x - 1, startPos.y⟩,
             ⟨startPos.x - 2, startPos.y⟩],
    direction := initialDirection,
    nextDirection := initialDirection,
    hasGrown := false }

/-- Source `Snake.reset`: reassigns all fields exactly as the constructor does. -/
def Snake.reset (_s : Snake) (startPos : Position) (initialDirection : Direction) : Snake :=
  { body := [⟨startPos.x, startPos.y⟩, ⟨startPos.x - 1, startPos.y⟩,
             ⟨startPos.x - 2, startPos.y⟩],
    direction := initialDirection,
    nextDirection := initialDirection,
    hasGrown := false }

/-- Source `Snake.getHead`: the head is `body[0]`. -/
def Snake.getHead (s : Snake) : Position :=
  s.body.headI

/-- Source `Snake.getBody`. -/
def Snake.getBody (s : Snake) : List Position :=
  s.body

/-- Source `Snake.getDirection`. -/
def Snake.getDirection (s : Snake) : Direction :=
  s.direction

/-- Source `Snake.getLength`. -/
def Snake.getLength (s : Snake) : Nat :=
  s.body.length

/-- Source `Snake.setDirection`: rejects an exact 180-degree reversal of the committed
direction; otherwise stores the new direction into the buffer `nextDirection`.
Returns the boolean result paired with the updated state. -/
def Snake.setDirection (s : Snake) (newDirection : Direction) : Bool × Snake :=
  if OPPOSITE_DIRECTION s.direction = newDirection then
    (false, s)
  else
    (true, { s with nextDirection := newDirection })

/-- Source `Snake.move`: commits the buffered direction, prepends the new head
(old head plus direction vector), and pops the tail unless a growth is pending. -/
def Snake.move (s : Snake) : Snake :=
  let dir := s.nextDirection
  let head := s.body.headI
  let vector := DIRECTION_VECTORS dir
  let newHead : Position := ⟨head.x + vector.x, head.y + vector.y⟩
  if s.hasGrown then
    { s with direction := dir, body := newHead :: s.body, hasGrown := false }
  else
    { s with direction := dir, body := (newHead :: s.body).dropLast }

/-- Source `Snake.grow`: marks a one-shot pending growth. -/
def Snake.grow (s : Snake) : Snake :=
  { s with hasGrown := true }

/-- Source `Snake.checkSelfCollision`: whether the head equals any later body segment. -/
def Snake.checkSelfCollision (s : Snake) : Bool :=
  match s.body with
  | [] => false
  | head :: rest => rest.any (fun seg => seg.x == head.x && seg.y == head.y)

/-- Source `Snake.isHeadAt`: exact-match query on the head position. -/
def Snake.isHeadAt (s : Snake) (position : Position) : Bool :=
  let head := s.body.headI
  head.x == position.x && head.y == position.y

/-- Source `Snake.occupiesPosition`: whether any body segment is at the position. -/
def Snake.occupiesPosition (s : Snake) (position : Position) : Bool :=
  s.body.any (fun segment => segment.x == position.x && segment.y == position.y)

/-- Source `Snake.isOutOfBounds`: whether the head lies outside `[0,w) x [0,h)`. -/
def Snake.isOutOfBounds (s : Snake) (gridWidth gridHeight : Nat) : Bool :=
  let head := s.body.headI
  decide (head.x < 0) || decide ((gridWidth : Int) ≤ head.x) ||
    decide (head.y < 0) || decide ((gridHeight : Int) ≤ head.y)

/-- Membership of a position in the `w x h` grid. -/
def inGrid (w h : Nat) (p : Position) : Prop :=
  0 ≤ p.x ∧ p.x < (w : Int) ∧ 0 ≤ p.y ∧ p.y < (h : Int)

instance (w h : Nat) (p : Position) : Decidable (inGrid w h p) := by
  unfold inGrid
  infer_instance

/-- All grid cells in the column-major order of the fallback scan in
`Food.spawn` (outer loop over x, inner loop over y). -/
def allCellsCM (w h : Nat) : List Position :=
  (List.range w).flatMap
    (fun (x : Nat) => (List.range h).map (fun (y : Nat) => ⟨(x : Int), (y : Int)⟩))

/-- State of the `Food` entity (fields `position`, `gridWidth`, `gridHeight`
of class `Food` in Food.ts). -/
structure Food where
  position : Position
  gridWidth : Nat
  gridHeight : Nat
deriving DecidableEq, Repr

/-- Source `Food.getPosition`. -/
def Food.getPosition (f : Food) : Position :=
  f.position

/-- Source `Food.setPosition`. -/
def Food.setPosition (f : Food) (position : Position) : Food :=
  { f with position := position }

/-- Source `Food.isAt`: exact-match query on the food position. -/
def Food.isAt (f : Food) (position : Position) : Bool :=
  f.position.x == position.x && f.position.y == position.y

/-- Source `Food.spawn`: the occupied key set is modelled by `occupiedPositions.dedup`
(the source builds a JS `Set` of `x,y` strings, whose keys coincide exactly with
position equality); `draws` models the stream of up to `maxAttempts` random
in-grid cells produced by `Math.floor(Math.random() * dim)` inside the attempt
loop. Returns false at once when the distinct occupied count covers the grid;
otherwise commits the first non-occupied random draw, or, when every draw
collides, the first free cell of a column-major scan. -/
def Food.spawn (f : Food) (occupiedPositions : List Position)
    (draws : List Position) : Bool × Food :=
  if f.gridWidth * f.gridHeight ≤ occupiedPositions.dedup.length then
    (false, f)
  else
    match draws.find? (fun p => !(occupiedPositions.dedup.contains p)) with
    | some p => (true, { f with position := p })
    | none =>
      match (allCellsCM f.gridWidth f.gridHeight).find?
          (fun p => !(occupiedPositions.dedup.contains p)) with
      | some p => (true, { f with position := p })
      | none => (false, f)

/-- Source `Food.respawn`: delegates to `spawn`. -/
def Food.respawn (f : Food) (occupiedPositions : List Position)
    (draws : List Position) : Bool × Food :=
  f.spawn occupiedPositions draws

/-- Collision classification result (source type `CollisionType`). -/
inductive CollisionType where
  | none
  | food
  | wall
  | self
deriving DecidableEq, Repr

/-- Game status owned by the external store (source type `GameStatus`). -/
inductive GameStatus where
  | menu
  | playing
  | paused
  | gameover
deriving DecidableEq, Repr

/-- The simulation-relevant state of `GameScene` plus the score fields of the
external game store it reads and writes (`score` via `incrementScore`,
`lastScore` is the scene's own field). -/
structure SceneState where
  snake : Snake
  food : Food
  moveTimer : ℚ
  moveInterval : ℚ
  isPaused : Bool
  lastScore : Nat
  score : Nat
  gameStatus : GameStatus
deriving DecidableEq, Repr

/-- Source `GameScene.checkCollisions`: wall, then self, then food, else none;
bounds are checked against the default grid constants. -/
def checkCollisions (snake : Snake) (food : Food) : CollisionType :=
  if snake.isOutOfBounds GRID_WIDTH GRID_HEIGHT then
    .wall
  else if snake.checkSelfCollision then
    .self
  else if snake.isHeadAt food.getPosition then
    .food
  else
    .none

/-- Source `GameScene.handleFoodCollision`: grows the snake, adds the fixed +10 to the
score, computes whether the level-up sound fires (the returned flag models the
`playSoundEffect` call guarded by the floor-of-50 comparison), records the
score into `lastScore`, and respawns the food against the full snake body. -/
def handleFoodCollision (sc : SceneState) (draws : List Position) : Bool × SceneState :=
  let snake1 := sc.snake.grow
  let currentScore := sc.score + 10
  let levelUp := decide (sc.lastScore / 50 < currentScore / 50) && decide (0 < currentScore)
  let food1 := (sc.food.respawn snake1.getBody draws).2
  (levelUp,
   { sc with snake := snake1, score := currentScore, lastScore := currentScore,
             food := food1 })

/-- Source `GameScene.handleGameOver`: surfaces the terminal status and halts stepping
by setting the pause flag. -/
def handleGameOver (sc : SceneState) : SceneState :=
  { sc with gameStatus := .gameover, isPaused := true }

/-- Source `GameScene.moveSnake`: one discrete step — move, classify, dispatch. -/
def moveSnake (sc : SceneState) (draws : List Position) : SceneState :=
  let sc1 := { sc with snake := sc.snake.move }
  let collision := checkCollisions sc1.snake sc1.food
  if collision = .food then
    (handleFoodCollision sc1 draws).2
  else if collision = .wall ∨ collision = .self then
    handleGameOver sc1
  else
    sc1

/-- Source `GameScene.handleInput`: the per-tick keyboard poll reduced to the optional
direction it resolves to; when present it is applied through `setDirection`. -/
def handleInput (sc : SceneState) (input : Option Direction) : SceneState :=
  match input with
  | none => sc
  | some d => { sc with snake := (sc.snake.setDirection d).2 }

/-- Source `GameScene.setDirectionFromTouch`: returns unchanged when the intent is
null or the scene is paused; otherwise applies the intent via `setDirection`. -/
def setDirectionFromTouch (sc : SceneState) (direction : Option Direction) : SceneState :=
  match direction with
  | none => sc
  | some d =>
    if sc.isPaused then
      sc
    else
      { sc with snake := (sc.snake.setDirection d).2 }

/-- Source `GameScene.update`: one tick — when paused, nothing happens; otherwise the
keyboard input is handled, the delta time is accumulated, and once the
accumulator reaches the move interval it is reset and one step is performed. -/
def update (sc : SceneState) (delta : ℚ) (input : Option Direction)
    (draws : List Position) : SceneState :=
  if sc.isPaused then
    sc
  else
    let sc1 := handleInput sc input
    let mt := sc1.moveTimer + delta
    if sc1.moveInterval ≤ mt then
      moveSnake { sc1 with moveTimer := 0 } draws
    else
      { sc1 with moveTimer := mt }

/-- A sample snake used as a concrete instantiation point. -/
def sampleSnake : Snake := Snake.create ⟨5, 5⟩ Direction.right

/-- The growth flag is already set after one `grow`, so a second `grow` is the
identity on the state. -/
theorem Snake.grow_grow (s : Snake) : s.grow.grow = s.grow := rfl

/-- C2 counterexample: a snake constructed facing up does not have its body
extending behind the head along the opposite of the initial direction — the
constructor always lays the two tail segments at x-1 and x-2. -/
theorem snake_create_layout_counterexample :
    (Snake.create ⟨10, 10⟩ Direction.up).body ≠
      [⟨10, 10⟩,
       ⟨10 - (DIRECTION_VECTORS Direction.up).x, 10 - (DIRECTION_VECTORS Direction.up).y⟩,
       ⟨10 - 2 * (DIRECTION_VECTORS Direction.up).x,
        10 - 2 * (DIRECTION_VECTORS Direction.up).y⟩] := by
  decide

/-- C2 (amended): for every initial position and direction, construction and
`reset` produce exactly 3 segments laid out in the negative-x direction from
the head — `[p, (p.x-1, p.y), (p.x-2, p.y)]` — regardless of the initial
direction (this coincides with "behind the head" only when the direction is
right), with committed and buffered direction both equal to the argument and
no pending growth. -/
theorem snake_create_reset_layout (p : Position) (d : Direction) (s : Snake) :
    (Snake.create p d).body = [p, ⟨p.x - 1, p.y⟩, ⟨p.x - 2, p.y⟩] ∧
    (Snake.create p d).direction = d ∧
    (Snake.create p d).nextDirection = d ∧
    (Snake.create p d).getLength = 3 ∧
    (Snake.create p d).hasGrown = false ∧
    s.reset p d = Snake.create p d :=
  ⟨rfl, rfl, rfl, rfl, rfl, rfl⟩

/-- C4: `setDirection` returns false and leaves the whole state unchanged
exactly when the new direction is the opposite of the currently committed
direction; otherwise it returns true and only overwrites the buffered
`nextDirection` (last write wins). -/
theorem setDirection_rejects_iff (s : Snake) (nd : Direction) :
    (s.setDirection nd = (false, s) ↔ nd = OPPOSITE_DIRECTION s.direction) ∧
    (nd ≠ OPPOSITE_DIRECTION s.direction →
      s.setDirection nd = (true, { s with nextDirection := nd })) := by
  by_cases h : OPPOSITE_DIRECTION s.direction = nd
  · exact ⟨by simp [Snake.setDirection, h], fun hne => absurd h.symm hne⟩
  · refine ⟨?_, fun _ => by simp [Snake.setDirection, h]⟩
    simp [Snake.setDirection, h]
    exact fun hne => absurd hne.symm h

/-- C4 witness: a perpendicular change from the sample snake (facing right) is
accepted and stored into the buffer. -/
theorem setDirection_rejects_iff_witness :
    Direction.up ≠ OPPOSITE_DIRECTION sampleSnake.direction ∧
    sampleSnake.setDirection Direction.up =
      (true, { sampleSnake with nextDirection := Direction.up }) :=
  ⟨by decide, (setDirection_rejects_iff sampleSnake Direction.up).2 (by decide)⟩

/-- C5: `move` commits the buffered direction, prepends the new head obtained
by adding the committed direction's unit vector to the old head, keeps the
length when no growth is pending, and grows by exactly one segment (clearing
the flag) when a growth is pending. -/
theorem move_spec (s : Snake) (h : s.body ≠ []) :
    (s.move).direction = s.nextDirection ∧
    (s.move).getHead = ⟨s.getHead.x + (DIRECTION_VECTORS s.nextDirection).x,
                        s.getHead.y + (DIRECTION_VECTORS s.nextDirection).y⟩ ∧
    (s.hasGrown = false →
      (s.move).body = ⟨s.getHead.x + (DIRECTION_VECTORS s.nextDirection).x,
                       s.getHead.y + (DIRECTION_VECTORS s.nextDirection).y⟩ ::
                      s.body.dropLast ∧
      (s.move).getLength = s.getLength ∧
      (s.move).hasGrown = false) ∧
    (s.hasGrown = true →
      (s.move).body = ⟨s.getHead.x + (DIRECTION_VECTORS s.nextDirection).x,
                       s.getHead.y + (DIRECTION_VECTORS s.nextDirection).y⟩ :: s.body ∧
      (s.move).getLength = s.getLength + 1 ∧
      (s.move).hasGrown = false) := by
  have hlen : 0 < s.body.length := List.length_pos.mpr h
  cases hg : s.hasGrown <;>
    simp [Snake.move, Snake.getHead, Snake.getLength, hg, List.dropLast_cons_of_ne_nil h,
      List.length_dropLast, List.length_cons] <;>
    omega

/-- C5 witness: instantiation of the move characterization at the sample
snake, whose body is nonempty. -/
theorem move_spec_witness :
    sampleSnake.body ≠ [] ∧
    ((sampleSnake.move).direction = sampleSnake.nextDirection ∧
     (sampleSnake.move).getHead =
       ⟨sampleSnake.getHead.x + (DIRECTION_VECTORS sampleSnake.nextDirection).x,
        sampleSnake.getHead.y + (DIRECTION_VECTORS sampleSnake.nextDirection).y⟩ ∧
     (sampleSnake.hasGrown = false →
       (sampleSnake.move).body =
         ⟨sampleSnake.getHead.x + (DIRECTION_VECTORS sampleSnake.nextDirection).x,
          sampleSnake.getHead.y + (DIRECTION_VECTORS sampleSnake.nextDirection).y⟩ ::
         sampleSnake.body.dropLast ∧
       (sampleSnake.move).getLength = sampleSnake.getLength ∧
       (sampleSnake.move).hasGrown = false) ∧
     (sampleSnake.hasGrown = true →
       (sampleSnake.move).body =
         ⟨sampleSnake.getHead.x + (DIRECTION_VECTORS sampleSnake.nextDirection).x,
          sampleSnake.getHead.y + (DIRECTION_VECTORS sampleSnake.nextDirection).y⟩ ::
         sampleSnake.body ∧
       (sampleSnake.move).getLength = sampleSnake.getLength + 1 ∧
       (sampleSnake.move).hasGrown = false)) :=
  ⟨by decide, move_spec sampleSnake (by decide)⟩

/-- C6: any positive number of `grow` calls before the next `move` equals a
single `grow`; the following `move` adds exactly one segment, and a further
`move` without an intervening `grow` leaves the length unchanged. -/
theorem grow_idempotent_c6 (s : Snake) (n : Nat) (hn : 1 ≤ n) :
    Snake.grow^[n] s = s.grow ∧
    (s.grow.move).getLength = s.getLength + 1 ∧
    (s.grow.move.move).getLength = (s.grow.move).getLength := by
  have hiter : ∀ m : Nat, Snake.grow^[m] s.grow = s.grow := by
    intro m
    induction m with
    | zero => rfl
    | succ k ih => rw [Function.iterate_succ_apply, Snake.grow_grow, ih]
  obtain ⟨m, rfl⟩ : ∃ m, n = m + 1 := ⟨n - 1, by omega⟩
  refine ⟨by rw [Function.iterate_succ_apply, hiter], ?_, ?_⟩
  · simp [Snake.grow, Snake.move, Snake.getLength]
  · simp [Snake.grow, Snake.move, Snake.getLength, List.length_dropLast, List.length_cons]

/-- C6 witness: three pre-move `grow` calls on the sample snake act as one. -/
theorem grow_idempotent_c6_witness :
    (1 : Nat) ≤ 3 ∧
    (Snake.grow^[3] sampleSnake = sampleSnake.grow ∧
     (sampleSnake.grow.move).getLength = sampleSnake.getLength + 1 ∧
     (sampleSnake.grow.move.move).getLength = (sampleSnake.grow.move).getLength) :=
  ⟨by decide, grow_idempotent_c6 sampleSnake 3 (by decide)⟩

/-- A snake whose head is out of bounds on the left edge. -/
def oobSnake : Snake :=
  { body := [⟨-1, 5⟩, ⟨0, 5⟩, ⟨1, 5⟩], direction := .left, nextDirection := .left,
    hasGrown := false }

/-- A food placed exactly under the out-of-bounds head. -/
def oobFood : Food := { position := ⟨-1, 5⟩, gridWidth := GRID_WIDTH, gridHeight := GRID_HEIGHT }

/-- C3: collision classification follows the exact wall, self, food, none
priority order, so in particular an out-of-bounds head that is also on the
food cell is classified as wall. -/
theorem checkCollisions_priority_c3 (s : Snake) (f : Food) :
    (checkCollisions s f = .wall ↔ s.isOutOfBounds GRID_WIDTH GRID_HEIGHT = true) ∧
    (checkCollisions s f = .self ↔
      s.isOutOfBounds GRID_WIDTH GRID_HEIGHT = false ∧ s.checkSelfCollision = true) ∧
    (checkCollisions s f = .food ↔
      s.isOutOfBounds GRID_WIDTH GRID_HEIGHT = false ∧ s.checkSelfCollision = false ∧
      s.isHeadAt f.getPosition = true) ∧
    (checkCollisions s f = .none ↔
      s.isOutOfBounds GRID_WIDTH GRID_HEIGHT = false ∧ s.checkSelfCollision = false ∧
      s.isHeadAt f.getPosition = false) ∧
    (s.isOutOfBounds GRID_WIDTH GRID_HEIGHT = true → s.isHeadAt f.getPosition = true →
      checkCollisions s f = .wall) := by
  cases hw : s.isOutOfBounds GRID_WIDTH GRID_HEIGHT <;>
    cases hs : s.checkSelfCollision <;>
      cases hf : s.isHeadAt f.getPosition <;>
        simp [checkCollisions, hw, hs, hf]

/-- Orthogonal grid adjacency: the two positions differ by exactly 1 in
exactly one coordinate and agree in the other. -/
def Adjacent (p q : Position) : Prop :=
  (p.y = q.y ∧ (p.x - q.x = 1 ∨ q.x - p.x = 1)) ∨
  (p.x = q.x ∧ (p.y - q.y = 1 ∨ q.y - p.y = 1))

instance (p q : Position) : Decidable (Adjacent p q) := by
  unfold Adjacent
  infer_instance

/-- Snake states reachable from a freshly constructed snake by finite
sequences of `setDirection`, `grow` and `move` calls. -/
inductive ReachableSnake : Snake → Prop where
  | init (p : Position) (d : Direction) : ReachableSnake (Snake.create p d)
  | step_setDirection (s : Snake) (d : Direction) :
      ReachableSnake s → ReachableSnake (s.setDirection d).2
  | step_grow (s : Snake) : ReachableSnake s → ReachableSnake s.grow
  | step_move (s : Snake) : ReachableSnake s → ReachableSnake s.move

/-- Adding a direction's unit vector to a position yields an orthogonally
adjacent position. -/
theorem adjacent_step (head : Position) (d : Direction) :
    Adjacent ⟨head.x + (DIRECTION_VECTORS d).x, head.y + (DIRECTION_VECTORS d).y⟩ head := by
  cases d <;> simp [Adjacent, DIRECTION_VECTORS]

/-- The body produced by `move` when a growth is pending: the new head is
prepended and the tail is kept. -/
theorem Snake.move_body_of_hasGrown (s : Snake) (hg : s.hasGrown = true) :
    s.move.body = ⟨s.body.headI.x + (DIRECTION_VECTORS s.nextDirection).x,
                   s.body.headI.y + (DIRECTION_VECTORS s.nextDirection).y⟩ :: s.body := by
  simp [Snake.move, hg]

/-- The body produced by `move` when no growth is pending: the new head is
prepended and the last segment is dropped. -/
theorem Snake.move_body_of_not_hasGrown (s : Snake) (hg : s.hasGrown = false) :
    s.move.body = (⟨s.body.headI.x + (DIRECTION_VECTORS s.nextDirection).x,
                    s.body.headI.y + (DIRECTION_VECTORS s.nextDirection).y⟩ :: s.body).dropLast := by
  simp [Snake.move, hg]

/-- C10: every reachable snake state has a body that is a connected orthogonal
grid path — consecutive segments are orthogonally adjacent — and its length
never drops below 3. -/
theorem snake_body_connected_c10 (s : Snake) (h : ReachableSnake s) :
    List.Chain' Adjacent s.body ∧ 3 ≤ s.getLength := by
  induction h with
  | init p d =>
    refine ⟨?_, by simp [Snake.create, Snake.getLength]⟩
    simp [Snake.create, List.chain'_cons, List.chain'_singleton, Adjacent]
  | step_setDirection s d hr ih =>
    have hb : ((s.setDirection d).2).body = s.body := by
      by_cases hop : OPPOSITE_DIRECTION s.direction = d <;> simp [Snake.setDirection, hop]
    simpa [Snake.getLength, hb] using ih
  | step_grow s hr ih =>
    simpa [Snake.grow, Snake.getLength] using ih
  | step_move s hr ih =>
    obtain ⟨hchain, hlen⟩ := ih
    rw [Snake.getLength] at hlen
    obtain ⟨h0, t, hbody⟩ : ∃ h0 t, s.body = h0 :: t := by
      cases hb : s.body with
      | nil => rw [hb] at hlen; simp at hlen
      | cons a l => exact ⟨a, l, rfl⟩
    rw [hbody] at hchain hlen
    have hchain1 : List.Chain' Adjacent
        (⟨h0.x + (DIRECTION_VECTORS s.nextDirection).x,
          h0.y + (DIRECTION_VECTORS s.nextDirection).y⟩ :: h0 :: t) :=
      List.chain'_cons.mpr ⟨adjacent_step h0 s.nextDirection, hchain⟩
    have hheadI : s.body.headI = h0 := by rw [hbody]; rfl
    simp only [List.length_cons] at hlen
    cases hg : s.hasGrown
    · have hb2 := Snake.move_body_of_not_hasGrown s hg
      rw [hheadI, hbody] at hb2
      refine ⟨?_, ?_⟩
      · rw [hb2]
        exact hchain1.init
      · rw [Snake.getLength, hb2, List.length_dropLast]
        simp only [List.length_cons]
        omega
    · have hb2 := Snake.move_body_of_hasGrown s hg
      rw [hheadI, hbody] at hb2
      refine ⟨?_, ?_⟩
      · rw [hb2]
        exact hchain1
      · rw [Snake.getLength, hb2]
        simp only [List.length_cons]
        omega

/-- A concrete reachable snake: constructed, grown once, moved once. -/
def reachedSnake : Snake := ((Snake.create ⟨5, 5⟩ Direction.right).grow).move

/-- C10 witness: the invariant evaluated on a concrete reachable state. -/
theorem snake_body_connected_c10_witness :
    ReachableSnake reachedSnake ∧
    (List.Chain' Adjacent reachedSnake.body ∧ 3 ≤ reachedSnake.getLength) := by
  have hr : ReachableSnake reachedSnake :=
    ReachableSnake.step_move _ (ReachableSnake.step_grow _ (ReachableSnake.init ⟨5, 5⟩ .right))
  exact ⟨hr, snake_body_connected_c10 reachedSnake hr⟩

/-- A position lies in the column-major cell enumeration exactly when it lies
in the grid. -/
theorem mem_allCellsCM (w h : Nat) (p : Position) :
    p ∈ allCellsCM w h ↔ inGrid w h p := by
  obtain ⟨px, py⟩ := p
  simp only [allCellsCM, inGrid, List.mem_flatMap, List.mem_map, List.mem_range,
    Position.mk.injEq]
  constructor
  · rintro ⟨x, hx, y, hy, hxe, hye⟩
    omega
  · rintro ⟨hx0, hxw, hy0, hyh⟩
    exact ⟨px.toNat, by omega, py.toNat, by omega, by omega, by omega⟩

/-- The column-major cell enumeration has no duplicates. -/
theorem nodup_allCellsCM (w h : Nat) : (allCellsCM w h).Nodup := by
  unfold allCellsCM
  refine List.nodup_flatMap.mpr ⟨?_, ?_⟩
  · intro x _
    refine List.Nodup.map ?_ (List.nodup_range h)
    intro a b hab
    simpa using hab
  · refine (List.pairwise_lt_range w).imp ?_
    intro a b hab
    intro p hp hq
    simp only [List.mem_map, List.mem_range] at hp hq
    obtain ⟨ya, _, rfl⟩ := hp
    obtain ⟨yb, _, heq⟩ := hq
    have : (b : Int) = (a : Int) := congrArg Position.x heq
    omega

/-- The column-major cell enumeration has exactly `w * h` entries. -/
theorem length_allCellsCM (w h : Nat) : (allCellsCM w h).length = w * h := by
  simp [allCellsCM, List.length_flatMap, Function.comp_def, List.map_const', mul_comm]

/-- C1 (amended): whenever every supplied occupied position is an in-grid cell
and at least one grid cell is free, `spawn` succeeds for every stream of
in-grid random draws, and the committed position is an in-grid cell outside
the occupied list; when moreover the free cell is unique among the grid cells,
that unique cell is the one committed. The in-grid restriction on the occupied
list is needed because the full-grid early-exit guard counts distinct occupied
positions without intersecting them with the grid. -/
theorem spawn_succeeds_c1 (f : Food) (occupied draws : List Position)
    (hocc : ∀ p ∈ occupied, inGrid f.gridWidth f.gridHeight p)
    (hdraws : ∀ p ∈ draws, inGrid f.gridWidth f.gridHeight p)
    (c : Position) (hcg : inGrid f.gridWidth f.gridHeight c) (hcf : c ∉ occupied) :
    (f.spawn occupied draws).1 = true ∧
    inGrid f.gridWidth f.gridHeight (f.spawn occupied draws).2.getPosition ∧
    (f.spawn occupied draws).2.getPosition ∉ occupied ∧
    ((∀ q ∈ allCellsCM f.gridWidth f.gridHeight, q ∉ occupied → q = c) →
      (f.spawn occupied draws).2.getPosition = c) := by
  have hsub : occupied.toFinset ⊆ (allCellsCM f.gridWidth f.gridHeight).toFinset := by
    intro p hp
    rw [List.mem_toFinset] at hp ⊢
    exact (mem_allCellsCM _ _ _).mpr (hocc p hp)
  have hcmem : c ∈ (allCellsCM f.gridWidth f.gridHeight).toFinset :=
    List.mem_toFinset.mpr ((mem_allCellsCM _ _ _).mpr hcg)
  have hcnot : c ∉ occupied.toFinset := fun hmem => hcf (List.mem_toFinset.mp hmem)
  have hcard : occupied.toFinset.card < (allCellsCM f.gridWidth f.gridHeight).toFinset.card :=
    Finset.card_lt_card ((Finset.ssubset_iff_of_subset hsub).mpr ⟨c, hcmem, hcnot⟩)
  have hall : (allCellsCM f.gridWidth f.gridHeight).toFinset.card =
      f.gridWidth * f.gridHeight := by
    rw [List.toFinset_card_of_nodup (nodup_allCellsCM _ _), length_allCellsCM]
  have hdedup : occupied.dedup.length = occupied.toFinset.card :=
    (List.card_toFinset occupied).symm
  have hguard : ¬ (f.gridWidth * f.gridHeight ≤ occupied.dedup.length) := by
    omega
  have hmain : (f.spawn occupied draws).1 = true ∧
      inGrid f.gridWidth f.gridHeight (f.spawn occupied draws).2.getPosition ∧
      (f.spawn occupied draws).2.getPosition ∉ occupied := by
    cases hfind : draws.find? (fun p => !(occupied.dedup.contains p)) with
    | some p =>
      have hspawn : f.spawn occupied draws = (true, { f with position := p }) := by
        unfold Food.spawn
        rw [if_neg hguard, hfind]
      have hpmem := List.mem_of_find?_eq_some hfind
      have hp2 : p ∉ occupied := by
        have hp1 := List.find?_some hfind
        simpa using hp1
      exact ⟨by rw [hspawn], by rw [hspawn]; exact hdraws p hpmem, by rw [hspawn]; exact hp2⟩
    | none =>
      obtain ⟨p, hfind2⟩ : ∃ p, (allCellsCM f.gridWidth f.gridHeight).find?
          (fun q => !(occupied.dedup.contains q)) = some p := by
        have hsome : ((allCellsCM f.gridWidth f.gridHeight).find?
            (fun q => !(occupied.dedup.contains q))).isSome := by
          rw [List.find?_isSome]
          refine ⟨c, (mem_allCellsCM _ _ _).mpr hcg, ?_⟩
          simp [List.mem_dedup, hcf]
        exact Option.isSome_iff_exists.mp hsome
      have hspawn : f.spawn occupied draws = (true, { f with position := p }) := by
        unfold Food.spawn
        rw [if_neg hguard, hfind, hfind2]
      have hpmem := List.mem_of_find?_eq_some hfind2
      have hp2 : p ∉ occupied := by
        have hp1 := List.find?_some hfind2
        simpa using hp1
      exact ⟨by rw [hspawn], by rw [hspawn]; exact (mem_allCellsCM _ _ _).mp hpmem,
        by rw [hspawn]; exact hp2⟩
  refine ⟨hmain.1, hmain.2.1, hmain.2.2, fun huniq => ?_⟩
  exact huniq _ (List.mem_toFinset.mp (List.mem_toFinset.mpr
    ((mem_allCellsCM _ _ _).mpr hmain.2.1))) hmain.2.2

/-- A 2 x 2 food instance with one free cell left. -/
def cornerFood : Food := { position := ⟨0, 0⟩, gridWidth := 2, gridHeight := 2 }

/-- The three occupied cells of the 2 x 2 grid, leaving (1,1) free. -/
def threeOccupied : List Position := [⟨0, 0⟩, ⟨0, 1⟩, ⟨1, 0⟩]

/-- C1 witness: on a 2 x 2 grid with all cells but (1,1) occupied and a
colliding random draw, spawn succeeds and commits the unique free cell. -/
theorem spawn_succeeds_c1_witness :
    (∀ p ∈ threeOccupied, inGrid cornerFood.gridWidth cornerFood.gridHeight p) ∧
    (∀ p ∈ [(⟨0, 0⟩ : Position)], inGrid cornerFood.gridWidth cornerFood.gridHeight p) ∧
    inGrid cornerFood.gridWidth cornerFood.gridHeight ⟨1, 1⟩ ∧
    (⟨1, 1⟩ : Position) ∉ threeOccupied ∧
    ((cornerFood.spawn threeOccupied [⟨0, 0⟩]).1 = true ∧
     inGrid cornerFood.gridWidth cornerFood.gridHeight
       (cornerFood.spawn threeOccupied [⟨0, 0⟩]).2.getPosition ∧
     (cornerFood.spawn threeOccupied [⟨0, 0⟩]).2.getPosition ∉ threeOccupied ∧
     ((∀ q ∈ allCellsCM cornerFood.gridWidth cornerFood.gridHeight,
        q ∉ threeOccupied → q = ⟨1, 1⟩) →
       (cornerFood.spawn threeOccupied [⟨0, 0⟩]).2.getPosition = ⟨1, 1⟩)) :=
  ⟨by decide, by decide, by decide, by decide,
   spawn_succeeds_c1 cornerFood threeOccupied [⟨0, 0⟩] (by decide) (by decide)
     ⟨1, 1⟩ (by decide) (by decide)⟩

/-- A 1 x 1 food instance. -/
def tinyFood : Food := { position := ⟨0, 0⟩, gridWidth := 1, gridHeight := 1 }

/-- C1 counterexample: with an occupied list consisting of a single
out-of-grid position, the only cell of a 1 x 1 grid is free, yet `spawn` with
the default 1000 in-grid random attempts returns false, because the early-exit
guard counts the out-of-grid entry as covering the grid. -/
theorem spawn_succeeds_c1_counterexample :
    inGrid tinyFood.gridWidth tinyFood.gridHeight ⟨0, 0⟩ ∧
    (⟨0, 0⟩ : Position) ∉ [(⟨5, 5⟩ : Position)] ∧
    (tinyFood.spawn [⟨5, 5⟩] (List.replicate 1000 ⟨0, 0⟩)).1 = false := by
  refine ⟨by decide, by decide, ?_⟩
  unfold Food.spawn
  rw [if_pos (by decide)]

/-- C7: when the distinct occupied positions number at least the total cell
count, `spawn` returns false immediately and the food state, in particular its
position, is unchanged. -/
theorem spawn_full_grid_c7 (f : Food) (occupied draws : List Position)
    (h : f.gridWidth * f.gridHeight ≤ occupied.dedup.length) :
    f.spawn occupied draws = (false, f) ∧
    (f.spawn occupied draws).2.getPosition = f.getPosition := by
  have hspawn : f.spawn occupied draws = (false, f) := by
    unfold Food.spawn
    rw [if_pos h]
  exact ⟨hspawn, by rw [hspawn]⟩

/-- The four cells of the 2 x 2 grid. -/
def fourOccupied : List Position := [⟨0, 0⟩, ⟨0, 1⟩, ⟨1, 0⟩, ⟨1, 1⟩]

/-- C7 witness: a fully occupied 2 x 2 grid makes spawn fail without moving
the food. -/
theorem spawn_full_grid_c7_witness :
    cornerFood.gridWidth * cornerFood.gridHeight ≤ fourOccupied.dedup.length ∧
    (cornerFood.spawn fourOccupied [⟨0, 0⟩] = (false, cornerFood) ∧
     (cornerFood.spawn fourOccupied [⟨0, 0⟩]).2.getPosition = cornerFood.getPosition) :=
  ⟨by decide, spawn_full_grid_c7 cornerFood fourOccupied [⟨0, 0⟩] (by decide)⟩

/-- C3 witness: a concrete state that is simultaneously out of bounds and
head-on-food is classified as wall. -/
theorem checkCollisions_priority_c3_witness :
    oobSnake.isOutOfBounds GRID_WIDTH GRID_HEIGHT = true ∧
    oobSnake.isHeadAt oobFood.getPosition = true ∧
    checkCollisions oobSnake oobFood = .wall :=
  ⟨by decide, by decide,
   (checkCollisions_priority_c3 oobSnake oobFood).2.2.2.2 (by decide) (by decide)⟩

/-- A concrete paused scene whose snake faces right. -/
def pausedScene : SceneState :=
  { snake := Snake.create ⟨5, 5⟩ Direction.right,
    food := { position := ⟨0, 0⟩, gridWidth := GRID_WIDTH, gridHeight := GRID_HEIGHT },
    moveTimer := 0, moveInterval := 100, isPaused := true, lastScore := 0, score := 0,
    gameStatus := .paused }

/-- C8 counterexample: in the paused scene a legal perpendicular touch intent
(up, while the committed direction is right, so `setDirection` itself would
accept it) is dropped — the buffered `nextDirection` stays right instead of
becoming up — because `setDirectionFromTouch` returns early when paused. -/
theorem paused_intent_dropped_counterexample :
    pausedScene.isPaused = true ∧
    (pausedScene.snake.setDirection Direction.up).1 = true ∧
    (setDirectionFromTouch pausedScene (some Direction.up)).snake.nextDirection ≠
      Direction.up := by
  refine ⟨rfl, by decide, ?_⟩
  simp [setDirectionFromTouch, pausedScene, Snake.create]

/-- C8 (amended): a tick in the paused state performs no time accumulation and
no step — `update` returns the scene unchanged, for every delta, keyboard
input and draw stream — and direction-intents received during the pause are
likewise dropped rather than buffered: `setDirectionFromTouch` is pause-gated
and returns the scene unchanged for every intent. An intent buffered before
the pause is retained, since pausing mutates nothing. -/
theorem paused_tick_c8 (sc : SceneState) (h : sc.isPaused = true) :
    (∀ (delta : ℚ) (input : Option Direction) (draws : List Position),
      update sc delta input draws = sc) ∧
    (∀ d : Option Direction, setDirectionFromTouch sc d = sc) := by
  constructor
  · intro delta input draws
    simp [update, h]
  · intro d
    cases d with
    | none => rfl
    | some dd => simp [setDirectionFromTouch, h]

/-- C8 witness: the paused-tick characterization evaluated on the concrete
paused scene. -/
theorem paused_tick_c8_witness :
    pausedScene.isPaused = true ∧
    ((∀ (delta : ℚ) (input : Option Direction) (draws : List Position),
       update pausedScene delta input draws = pausedScene) ∧
     (∀ d : Option Direction, setDirectionFromTouch pausedScene d = pausedScene)) :=
  ⟨rfl, paused_tick_c8 pausedScene rfl⟩

/-- C9: on a food collision the level-up event fires exactly when the new
score crosses into a new multiple-of-50 block; under the session invariant
that the score is the fixed +10 per food and `lastScore` tracks the score,
this happens exactly when the post-increment score is a multiple of 50, that
is at 50, 100, 150, and so on. The score positivity clause of the guard is
automatic since the post-increment score is at least 10. -/
theorem levelup_boundary_c9 (sc : SceneState) (draws : List Position) (n : Nat)
    (hscore : sc.score = 10 * n) (hlast : sc.lastScore = sc.score) :
    ((handleFoodCollision sc draws).1 = true ↔ (sc.score + 10) % 50 = 0) ∧
    (handleFoodCollision sc draws).2.score = sc.score + 10 ∧
    (handleFoodCollision sc draws).2.lastScore = (handleFoodCollision sc draws).2.score := by
  refine ⟨?_, rfl, rfl⟩
  simp only [handleFoodCollision, Bool.and_eq_true, decide_eq_true_eq]
  rw [hlast, hscore]
  constructor
  · rintro ⟨hlt, -⟩
    omega
  · intro hmod
    exact ⟨by omega, by omega⟩

/-- A concrete playing scene with score 40 and tracked last score 40. -/
def preLevelUpScene : SceneState :=
  { snake := Snake.create ⟨5, 5⟩ Direction.right,
    food := { position := ⟨0, 0⟩, gridWidth := GRID_WIDTH, gridHeight := GRID_HEIGHT },
    moveTimer := 0, moveInterval := 100, isPaused := false, lastScore := 40, score := 40,
    gameStatus := .playing }

/-- C9 witness: the boundary characterization evaluated at score 40, where the
food collision brings the score to 50 and the level-up event fires. -/
theorem levelup_boundary_c9_witness :
    preLevelUpScene.score = 10 * 4 ∧
    preLevelUpScene.lastScore = preLevelUpScene.score ∧
    (((handleFoodCollision preLevelUpScene []).1 = true ↔
        (preLevelUpScene.score + 10) % 50 = 0) ∧
     (handleFoodCollision preLevelUpScene []).2.score = preLevelUpScene.score + 10 ∧
     (handleFoodCollision preLevelUpScene []).2.lastScore =
       (handleFoodCollision preLevelUpScene []).2.score) :=
  ⟨rfl, rfl, levelup_boundary_c9 preLevelUpScene [] 4 rfl rfl⟩
